import Mathlib

/-!
Shallow embedding of the Langchain-Agent weather CLI (Python sources under
`src/`) together with proofs about its behaviour.  Python strings are
modelled by `String`, Python lists by `List`, floats by `ℚ`, raised
exceptions by `Except`/tagged outcome types, and remote HTTP endpoints by
oracle functions passed in explicitly.  All string operations are defined
structurally over the character list so that concrete instances evaluate
inside the kernel.
-/

namespace LCAgent

/-! ## Python string primitives (ASCII model) -/

/-- Model of Python `str.lower()` (ASCII range). -/
def pyLower (s : String) : String :=
  ⟨s.data.map Char.toLower⟩

/-- Model of Python `str.upper()` (ASCII range). -/
def pyUpper (s : String) : String :=
  ⟨s.data.map Char.toUpper⟩

/-- Model of Python `str.capitalize()`: first character upper-cased, the
remaining characters lower-cased. -/
def pyCapitalize (s : String) : String :=
  match s.data with
  | [] => ""
  | c :: cs => ⟨c.toUpper :: cs.map Char.toLower⟩

/-- Helper for `pyTitle`: the boolean records whether the previous character
was alphabetic. -/
def pyTitleAux : Bool → List Char → List Char
  | _, [] => []
  | prevAlpha, c :: cs =>
    (if c.isAlpha then (if prevAlpha then c.toLower else c.toUpper) else c)
      :: pyTitleAux c.isAlpha cs

/-- Model of Python `str.title()`: each alphabetic run starts with an upper
case letter, remaining letters lower-cased. -/
def pyTitle (s : String) : String :=
  ⟨pyTitleAux false s.data⟩

/-- Helper for `pySplit`: whitespace splitting with an accumulator holding
the current word reversed. -/
def pySplitAux : List Char → List Char → List String
  | acc, [] => if acc = [] then [] else [⟨acc.reverse⟩]
  | acc, c :: cs =>
    if c.isWhitespace then
      if acc = [] then pySplitAux [] cs else ⟨acc.reverse⟩ :: pySplitAux [] cs
    else pySplitAux (c :: acc) cs

/-- Model of Python `str.split()` with no separator: split on whitespace
runs, dropping empty pieces. -/
def pySplit (s : String) : List String :=
  pySplitAux [] s.data

/-- Helper for `pySplitChar`: separator splitting that keeps empty pieces,
as Python `str.split(sep)` does. -/
def pySplitCharAux (sep : Char) : List Char → List Char → List (List Char)
  | acc, [] => [acc.reverse]
  | acc, c :: cs =>
    if c = sep then acc.reverse :: pySplitCharAux sep [] cs
    else pySplitCharAux sep (c :: acc) cs

/-- Model of Python `str.split(sep)` for a one-character separator. -/
def pySplitChar (sep : Char) (s : String) : List String :=
  (pySplitCharAux sep [] s.data).map (fun l => ⟨l⟩)

/-- Model of Python `str.strip()`: whitespace removed from both ends. -/
def pyStrip (s : String) : String :=
  ⟨((s.data.dropWhile Char.isWhitespace).reverse.dropWhile Char.isWhitespace).reverse⟩

/-- Helper for `pyContains`: does the needle occur as a contiguous sublist? -/
def containsAux (needle : List Char) : List Char → Bool
  | [] => needle.isEmpty
  | c :: t => needle.isPrefixOf (c :: t) || containsAux needle t

/-- Model of the Python substring test `needle in hay`. -/
def pyContains (hay needle : String) : Bool :=
  containsAux needle.data hay.data

/-- Model of Python `str.isdigit()` restricted to ASCII digits. -/
def pyIsDigit (s : String) : Bool :=
  s ≠ "" && s.data.all Char.isDigit

/-- Model of Python `int(s)` on a string of ASCII digits. -/
def pyParseNat (s : String) : Nat :=
  s.data.foldl (fun acc c => acc * 10 + (c.toNat - 48)) 0

/-- Model of Python `" ".join(args)`. -/
def joinSpace : List String → String
  | [] => ""
  | [a] => a
  | a :: rest => a ++ " " ++ joinSpace rest

/-! ## WeatherAgent._extract_location (src/agents/weather_agent.py) -/

/-- The fixed list of known cities, in the priority order of the source. -/
def pakistani_cities : List String :=
  ["Islamabad", "Lahore", "Karachi", "Peshawar", "Quetta",
   "Rawalpindi", "Multan", "Faisalabad", "Hyderabad", "Gujranwala"]

/-- The preposition keywords scanned by `_extract_location`. -/
def location_keywords : List String :=
  ["in", "at", "for", "to", "around", "near"]

/-- The indexed loop over `words` in `_extract_location`: at each position,
if the word is a location keyword and a next word exists, the next word is
capitalized and tested for membership in the lower-cased city list; on a
match the source returns that token capitalized once more. -/
def prepositionScan : List String → Option String
  | w :: next :: rest =>
    if w ∈ location_keywords ∧ pyCapitalize next ∈ pakistani_cities.map pyLower
    then some (pyCapitalize (pyCapitalize next))
    else prepositionScan (next :: rest)
  | _ => none

/-- Embedding of `WeatherAgent._extract_location`: first a case-insensitive
substring scan over the fixed city list in priority order, then the
preposition scan, then the hardcoded default. -/
def extract_location (query : String) : String :=
  let query_lower := pyLower query
  match pakistani_cities.find? (fun city => pyContains query_lower (pyLower city)) with
  | some city => city
  | none =>
    match prepositionScan (pySplit query_lower) with
    | some loc => loc
    | none => "Islamabad"

example : extract_location "weather Lahore" = "Lahore" := by decide

example : extract_location "what is up" = "Islamabad" := by decide

example : extract_location "weather in karachi and lahore" = "Lahore" := by decide

/-! ## Data model (src/tools/weather_tool.py) -/

/-- Embedding of the `WeatherData` dataclass.  Floats are modelled by `ℚ`,
the timestamp by unix seconds. -/
structure WeatherData where
  temperature : ℚ
  feels_like : ℚ
  humidity : Int
  wind_speed : ℚ
  description : String
  icon : String
  timestamp : Int
  location : String
  uv_index : Option ℚ := none
  air_quality : Option Int := none
deriving DecidableEq

/-- Embedding of the air-quality dictionary returned by
`WeatherTool.get_air_quality`. -/
structure AirQuality where
  aqi : Int
  components : List (String × ℚ)
deriving DecidableEq

/-- Rendering of a Python number in an f-string.  Exact for integral floats
(Python prints `31.0`); non-integral values are shown as a fraction, which
abstracts Python decimal output but keeps the digits of the value. -/
def pyFloatRepr (q : ℚ) : String :=
  if q.den = 1 then toString q.num ++ ".0"
  else toString q.num ++ "/" ++ toString q.den

/-! ## WeatherAgent.invoke (src/agents/weather_agent.py) -/

/-- Oracle for the remote weather provider as seen by `WeatherAgent.invoke`:
`current` models `WeatherTool.get_current_weather`, `air` models
`WeatherTool.get_air_quality`; `.error` is a raised exception. -/
structure WeatherOracle where
  current : String → Except String WeatherData
  air : String → Except String AirQuality

/-- Log of the weather-tool operations a code path invoked, in call order. -/
structure CallLog where
  current : List String := []
  air : List String := []
  forecast : List (String × Nat) := []
deriving DecidableEq

/-- Message returned by `invoke` when location extraction yields a falsy
value. -/
def couldnt_determine_msg : String :=
  "I couldn\x27t determine the location from your query. Please specify a location name."

/-- Message built by the `except` clause of `WeatherAgent.invoke`. -/
def error_reply (e : String) : String :=
  "Sorry, I encountered an error: " ++ e ++ ". Please try rephrasing your question."

/-- Body of `WeatherAgent.invoke` after the location check: fetch current
weather (an exception is converted to `error_reply`), attempt the air-quality
fetch (result unused by the reply, failures swallowed), then pick the reply
template from substring tests on the query. -/
def invoke_resolved (o : WeatherOracle) (query location : String) : String × CallLog :=
  match o.current location with
  | .error e => (error_reply e, { current := [location] })
  | .ok w =>
    let log : CallLog := { current := [location], air := [location] }
    if pyContains (pyLower query) "temperature" then
      ("The current temperature in " ++ location ++ " is "
        ++ pyFloatRepr w.temperature ++ "°C.", log)
    else if pyContains (pyLower query) "rain" then
      ("In " ++ location ++ ", the current conditions are " ++ w.description ++ ".", log)
    else
      ("Current weather in " ++ location ++ ": " ++ w.description
        ++ ", Temperature: " ++ pyFloatRepr w.temperature
        ++ "°C, Humidity: " ++ toString w.humidity
        ++ "%, Wind Speed: " ++ pyFloatRepr w.wind_speed ++ " km/h.", log)

/-- Embedding of `WeatherAgent.invoke`: extract the location, return the
could-not-determine message if it is falsy, otherwise run the resolved
body. -/
def invoke (o : WeatherOracle) (query : String) : String × CallLog :=
  let location := extract_location query
  if location = "" then (couldnt_determine_msg, {})
  else invoke_resolved o query location

/-! ## Outdoor activity recommendations (src/agents/weather_agent.py) -/

def swim_advisory : String := "Great day for swimming or beach activities"

def hike_advisory : String := "Perfect for hiking or outdoor sports"

def indoor_advisory : String :=
  "Consider indoor activities or dress warmly for outdoor activities"

def wind_advisory : String := "High winds - avoid activities that require balance"

def rain_advisory : String := "Rain expected - consider indoor activities"

/-- The `if/elif/elif` temperature chain of
`_get_outdoor_activity_recommendations`. -/
def tempActivityRecs (t : ℚ) : List String :=
  if t > 25 then [swim_advisory]
  else if 15 ≤ t ∧ t ≤ 25 then [hike_advisory]
  else if t < 15 then [indoor_advisory]
  else []

/-- Embedding of `WeatherAgent._get_outdoor_activity_recommendations`: the
temperature advisory followed by the wind and rain advisories when their
conditions hold. -/
def outdoor_activity_recommendations (w : WeatherData) : List String :=
  tempActivityRecs w.temperature
    ++ (if w.wind_speed > 20 then [wind_advisory] else [])
    ++ (if pyContains (pyLower w.description) "rain" then [rain_advisory] else [])

/-- Index of the temperature band the source's thresholds select:
0 below 15, 1 from 15 to 25 inclusive, 2 above 25. -/
def activityLevel (t : ℚ) : Nat :=
  if 25 < t then 2 else if 15 ≤ t then 1 else 0

/-- The advisory string emitted for each temperature band. -/
def advisoryOfLevel : Nat → String
  | 0 => indoor_advisory
  | 1 => hike_advisory
  | _ => swim_advisory

/-! ## Command dispatcher (src/utils/command_handler.py) -/

/-- Result of one dispatcher handler: either a string returned directly, or
a query forwarded to `WeatherAgent.invoke`. -/
inductive HandlerResult
  | message : String → HandlerResult
  | agentQuery : String → HandlerResult
deriving DecidableEq

/-- Embedding of `CommandHandler._handle_weather`. -/
def handle_weather (args : List String) : HandlerResult :=
  if args = [] then .message "Please provide a location. Usage: weather [location]"
  else .agentQuery ("What\x27s the current weather in " ++ joinSpace args ++ "?")

/-- Embedding of `CommandHandler._handle_forecast`: with more than one
argument the last one, if made of digits, is the day count (default 3) and
the rest is the location. -/
def handle_forecast : List String → HandlerResult
  | [] => .message
      "Please provide a location and optionally number of days. Usage: forecast [location] [days]"
  | a :: rest =>
    let args := a :: rest
    let location := if args.length > 1 then joinSpace args.dropLast else a
    let days : Nat :=
      if args.length > 1 ∧ pyIsDigit (args.getLast (List.cons_ne_nil a rest))
      then pyParseNat (args.getLast (List.cons_ne_nil a rest)) else 3
    .agentQuery ("What\x27s the " ++ toString days ++ "-day forecast for " ++ location ++ "?")

/-- Embedding of `CommandHandler._handle_air`. -/
def handle_air (args : List String) : HandlerResult :=
  if args = [] then .message "Please provide a location. Usage: air [location]"
  else .agentQuery ("What\x27s the air quality in " ++ joinSpace args ++ "?")

/-- Embedding of `CommandHandler._handle_recommend`. -/
def handle_recommend (args : List String) : HandlerResult :=
  if args = [] then .message "Please provide a location. Usage: recommend [location]"
  else .agentQuery ("What are the weather recommendations for " ++ joinSpace args ++ "?")

/-- Embedding of `CommandHandler._handle_travel`. -/
def handle_travel (args : List String) : HandlerResult :=
  if args = [] then .message "Please provide a location. Usage: travel [location]"
  else .agentQuery ("What\x27s the travel impact in " ++ joinSpace args ++ "?")

/-- The help text returned by `CommandHandler._handle_help`. -/
def help_text : String :=
  "\n        Available commands:\n        - \x27weather [location]\x27 - Get current weather\n        - \x27forecast [location] [days]\x27 - Get weather forecast (default 3 days)\n        - \x27air [location]\x27 - Get air quality information\n        - \x27recommend [location]\x27 - Get personalized recommendations\n        - \x27travel [location]\x27 - Get travel impact analysis\n        - \x27help\x27 - Show this help message\n        - \x27exit\x27 or \x27quit\x27 - Exit the program\n        "

/-- Embedding of `CommandHandler.handle_command`: known verbs go to their
handler, anything else is forwarded verbatim (verb included) as a free-text
agent query. -/
def handle_command (command : String) (args : List String) : HandlerResult :=
  if command = "weather" then handle_weather args
  else if command = "forecast" then handle_forecast args
  else if command = "air" then handle_air args
  else if command = "recommend" then handle_recommend args
  else if command = "travel" then handle_travel args
  else if command = "help" then .message help_text
  else .agentQuery (pyStrip (command ++ " " ++ joinSpace args))

/-- Composition of the dispatcher with the weather agent: a forwarded query
is answered by `invoke`. -/
def dispatch (o : WeatherOracle) (command : String) (args : List String) :
    String × CallLog :=
  match handle_command command args with
  | .message m => (m, {})
  | .agentQuery q => invoke o q

/-! ## Main loop (src/main.py) -/

/-- Embedding of `WeatherApp._parse_input`: strip, split on whitespace,
lower-case the first token. -/
def parse_input (user_input : String) : String × List String :=
  match pySplit (pyStrip user_input) with
  | [] => ("", [])
  | c :: rest => (pyLower c, rest)

/-- Outcome of one iteration of the `WeatherApp.run` loop. -/
inductive TurnOutcome
  | exited
  | printedError (msg : String)
  | printedResponse (response : String)
deriving DecidableEq

/-- The CPython message for the call `route_query(user_input, agent)` in
`WeatherApp.run`: `route_query` declares four required positional parameters
`(query, agent, tool_selector, review_agent)` and the call site supplies
two, so the call raises `TypeError` before the function body runs. -/
def route_query_missing_args_error : String :=
  "route_query() missing 2 required positional arguments: \x27tool_selector\x27 and \x27review_agent\x27"

/-- Embedding of one iteration of `WeatherApp.run` (assuming agent
construction succeeds): parse the input, exit on `exit`/`quit`, otherwise
the under-applied `route_query` call raises `TypeError`, which the
`except` clause prints.  `CommandHandler` is constructed by `WeatherApp`
but never consulted by `run`. -/
def run_turn (user_input : String) : TurnOutcome :=
  let parsed := parse_input user_input
  if parsed.1 = "exit" ∨ parsed.1 = "quit" then .exited
  else .printedError route_query_missing_args_error

/-! ## WeatherTool coordinates (src/tools/weather_tool.py) -/

/-- Outcome of one `geo/1.0/direct` request: a raised exception, a
successful reply whose list is empty, or coordinates. -/
inductive GeoLookup
  | apiError
  | emptyList
  | found (lat lon : ℚ)
deriving DecidableEq

/-- Outcome of one fallback `weather` request inside `_get_coordinates`:
a raised exception (or missing fields) or coordinates. -/
inductive WxLookup
  | apiError
  | found (lat lon : ℚ)
deriving DecidableEq

/-- The five name variations `_get_coordinates` builds, in source order. -/
def location_variations (location : String) : List String :=
  [location, location ++ ",PK", location ++ ",Pakistan", pyTitle location, pyUpper location]

/-- One iteration of the geocoding loop: coordinates on `found`, otherwise
the loop continues. -/
def geoAttempt (geo : String → GeoLookup) (loc : String) : Option (ℚ × ℚ) :=
  match geo loc with
  | .found lat lon => some (lat, lon)
  | _ => none

/-- One iteration of the weather-endpoint fallback loop. -/
def wxAttempt (wx : String → WxLookup) (loc : String) : Option (ℚ × ℚ) :=
  match wx loc with
  | .found lat lon => some (lat, lon)
  | _ => none

/-- The message of the exception raised when every attempt fails. -/
def coordinates_error_msg (location : String) : String :=
  "Could not find coordinates for " ++ location
    ++ ". Please check the location name and try again."

/-- Embedding of `WeatherTool._get_coordinates`: try the five variations
against the geocoding endpoint in order, then the same five against the
weather endpoint, and raise the location-not-found exception only when all
ten attempts fail. -/
def get_coordinates (geo : String → GeoLookup) (wx : String → WxLookup)
    (location : String) : Except String (ℚ × ℚ) :=
  match (location_variations location).findSome? (geoAttempt geo) with
  | some c => .ok c
  | none =>
    match (location_variations location).findSome? (wxAttempt wx) with
    | some c => .ok c
    | none => .error (coordinates_error_msg location)

/-! ## WeatherTool.get_historical_air_quality (src/tools/weather_tool.py) -/

/-- Outcome of the day-`i` history request: a raised exception (swallowed by
the `except` clause), a reply with an empty `list` (skipped by the `if`),
or a parsed entry. -/
inductive DayFetch (α : Type)
  | apiError
  | emptyList
  | ok (entry : α)
deriving DecidableEq

/-- The entry a day contributes to the result, if any. -/
def dayValue {α : Type} : DayFetch α → Option α
  | .ok e => some e
  | _ => none

/-- Embedding of `WeatherTool.get_historical_air_quality`: loop over day
offsets `0, …, days-1`, appending the parsed entry of each day whose
request yields a non-empty list, and skipping days that raise. -/
def get_historical_air_quality {α : Type} (days : Nat) (fetch : Nat → DayFetch α) :
    List α :=
  (List.range days).filterMap (fun i => dayValue (fetch i))

/-! ## ReviewAgent (src/agents/agent.py) -/

/-- The review prompt `ReviewAgent.review_response` builds from its template
by substituting the two inputs. -/
def review_prompt (weather_response original_query : String) : String :=
  "\n            You are a weather response reviewer. Your task is to verify and enhance weather information responses.\n            \n            Original Query: " ++ original_query
    ++ "\n            Weather Response: " ++ weather_response
    ++ "\n            \n            Review the response and provide a final, enhanced response that:\n            1. Directly answers the original query\n            2. Includes all necessary information (temperature, conditions, humidity, wind)\n            3. Adds the current time in the local timezone\n            4. Is clear and well-formatted\n            5. Includes a brief source attribution\n            \n            Format your response as a single, concise paragraph. Do not include any analysis or numbered points.\n            Current time should be in 24-hour format.\n            \n            Example format:\n            \"According to the latest weather data, [weather conditions] in [location] at [time]. Temperature is [temp]°C with [humidity]% humidity and [wind] km/h winds. Data provided by OpenWeatherMap.\"\n            "

/-- Embedding of `ReviewAgent.review_response`.  The language model is an
oracle mapping the prompt to a reply or a raised exception; the second
component counts how many times the model was invoked.  On success the last
line of the reply is kept and stripped; on any failure the draft is returned
unchanged. -/
def review_response (llm : String → Except String String)
    (weather_response original_query : String) : String × Nat :=
  match llm (review_prompt weather_response original_query) with
  | .error _ => (weather_response, 1)
  | .ok review =>
    let cleaned :=
      if pyContains review "\n" then (pySplitChar '\n' review).getLast! else review
    (pyStrip cleaned, 1)

/-! ## Startup (src/tools/weather_tool.py, src/main.py) -/

/-- State held by a constructed `WeatherTool`. -/
structure WeatherToolState where
  api_key : String
  base_url : String
deriving DecidableEq

/-- The message of the `ValueError` raised by `WeatherTool.__init__`. -/
def weather_key_error : String :=
  "OPENWEATHERMAP_API_KEY environment variable is not set"

/-- Embedding of `WeatherTool.__init__`: `os.getenv` yields `None` when the
variable is unset; `if not self.api_key` treats `None` and the empty string
as falsy and raises `ValueError`.  No HTTP request is made. -/
def WeatherTool_init (env_api_key : Option String) : Except String WeatherToolState :=
  match env_api_key with
  | none => .error weather_key_error
  | some k =>
    if k = "" then .error weather_key_error
    else .ok { api_key := k, base_url := "http://api.openweathermap.org/data/2.5" }

/-- Outcome of program startup: either a fatal error (printed message, exit
code, number of HTTP requests issued so far) or entry into the interactive
loop. -/
inductive StartupResult
  | fatalError (printed : String) (exit_code : Nat) (http_requests : Nat)
  | enteredLoop (http_requests : Nat)
deriving DecidableEq

/-- Embedding of `main()` up to the interactive loop: `WeatherApp.__init__`
constructs a `WeatherAgent`, whose `WeatherTool()` raises when the key is
missing; the exception reaches `main`'s `except Exception` clause, which
prints the error and returns 1 (passed to `sys.exit`).  No constructor
issues an HTTP request. -/
def main_startup (env_api_key : Option String) : StartupResult :=
  match WeatherTool_init env_api_key with
  | .error e => .fatalError ("An unexpected error occurred: " ++ e) 1 0
  | .ok _ => .enteredLoop 0

/-! ## Concrete test data -/

/-- A concrete weather snapshot used to evaluate scenario theorems. -/
def demoWeather : WeatherData :=
  { temperature := 31, feels_like := 33, humidity := 40, wind_speed := 5,
    description := "clear sky", icon := "01d", timestamp := 1700000000,
    location := "Lahore" }

/-- A weather oracle that always succeeds, echoing the requested location. -/
def demoOracle : WeatherOracle :=
  { current := fun loc => .ok { demoWeather with location := loc },
    air := fun _ => .ok { aqi := 2, components := [] } }

/-! ## Helper lemmas -/

theorem char_toNat_ofNat {n : Nat} (h : n < 55296) : (Char.ofNat n).toNat = n := by
  have hv : n.isValidChar := Or.inl h
  rw [Char.ofNat, dif_pos hv]
  rfl

theorem char_toUpper_not_lowercase (c : Char) :
    (Char.toUpper c).toNat < 97 ∨ 122 < (Char.toUpper c).toNat := by
  rw [Char.toUpper]
  by_cases h : c.toNat ≥ 97 ∧ c.toNat ≤ 122
  · rw [if_pos h]
    have : (Char.ofNat (c.toNat - 32)).toNat = c.toNat - 32 := char_toNat_ofNat (by omega)
    omega
  · rw [if_neg h]
    omega

/-- Does the string start with an ASCII lower-case letter? -/
def startsLowercase (s : String) : Bool :=
  match s.data with
  | [] => false
  | c :: _ => 97 ≤ c.toNat && c.toNat ≤ 122

theorem pyCapitalize_not_startsLowercase (w : String) :
    startsLowercase (pyCapitalize w) = false := by
  rw [pyCapitalize]
  cases hw : w.data with
  | nil => rfl
  | cons a as =>
    have h := char_toUpper_not_lowercase a
    simp only [startsLowercase]
    simp only [Bool.and_eq_false_iff, decide_eq_false_iff_not]
    omega

/-- The membership test of the preposition branch compares a capitalized
token against lower-cased city names and can never succeed. -/
theorem capitalized_not_mem_lower_cities (w : String) :
    pyCapitalize w ∉ pakistani_cities.map pyLower := by
  intro hmem
  have hall : ∀ s ∈ pakistani_cities.map pyLower, startsLowercase s = true := by decide
  have := hall _ hmem
  rw [pyCapitalize_not_startsLowercase w] at this
  exact Bool.false_ne_true this

/-- The preposition scan of `_extract_location` never returns a location. -/
theorem prepositionScan_none (words : List String) : prepositionScan words = none := by
  induction words with
  | nil => rfl
  | cons w rest ih =>
    cases rest with
    | nil => rfl
    | cons next r =>
      rw [prepositionScan, if_neg]
      · exact ih
      · exact fun h => capitalized_not_mem_lower_cities next h.2

/-- Location extraction always lands in the fixed city list. -/
theorem extract_location_mem (query : String) :
    extract_location query ∈ pakistani_cities := by
  rw [extract_location]
  cases hf : pakistani_cities.find? (fun city => pyContains (pyLower query) (pyLower city)) with
  | some city =>
    simpa using List.mem_of_find?_eq_some hf
  | none =>
    simp only [prepositionScan_none]
    decide

theorem extract_location_ne_empty (query : String) : extract_location query ≠ "" := by
  have hmem := extract_location_mem query
  have : ∀ c ∈ pakistani_cities, c ≠ "" := by decide
  exact this _ hmem

theorem findSome?_first {α β : Type} (f : α → Option β) (pre post : List α) (v : α)
    (c : β) (hv : f v = some c) (hpre : ∀ u ∈ pre, f u = none) :
    (pre ++ v :: post).findSome? f = some c := by
  rw [List.findSome?_append, List.findSome?_eq_none_iff.mpr hpre]
  simp only [Option.none_or]
  rw [List.findSome?_cons_of_isSome _ (by simp [hv]), hv]

theorem filterMap_drop_none {α β : Type} [DecidableEq α] (f : α → Option β) (i : α)
    (h : f i = none) (l : List α) :
    l.filterMap f = (l.filter (fun j => decide (j ≠ i))).filterMap f := by
  induction l with
  | nil => rfl
  | cons a t ih =>
    by_cases ha : a = i
    · subst ha
      simp [List.filter_cons, List.filterMap_cons, h, ih]
    · simp [List.filter_cons, List.filterMap_cons, ha, ih]

/-- Spec-side predicate for the claim's "recognized preposition pattern": a
location keyword immediately followed by a token equal (case-insensitively)
to a known city name. -/
def hasPrepCityPattern (query : String) : Bool :=
  let ws := pySplit (pyLower query)
  (ws.zip ws.tail).any
    (fun p => p.1 ∈ location_keywords && p.2 ∈ pakistani_cities.map pyLower)

/-! ## Claim theorems -/

/-- C4 counterexample: the query `"weather in karachi and lahore"` contains
the known city name "Karachi" (case-insensitively), yet location extraction
returns "Lahore", because "Lahore" precedes "Karachi" in the fixed priority
list.  So it is not true that every query containing a given city name
resolves to that city. -/
theorem c4_counterexample :
    pyContains (pyLower "weather in karachi and lahore") (pyLower "Karachi") = true ∧
    "Karachi" ∈ pakistani_cities ∧
    extract_location "weather in karachi and lahore" = "Lahore" ∧
    extract_location "weather in karachi and lahore" ≠ "Karachi" := by
  refine ⟨by decide, by decide, by decide, by decide⟩

/-- C4 (amended): for each known city, every query string containing that
city name case-insensitively — and containing no city listed earlier in the
fixed priority order — causes location extraction to return that city. -/
theorem c4_extract_first_listed_city (query city : String) (pre post : List String)
    (hsplit : pakistani_cities = pre ++ city :: post)
    (hcity : pyContains (pyLower query) (pyLower city) = true)
    (hearlier : ∀ c ∈ pre, pyContains (pyLower query) (pyLower c) = false) :
    extract_location query = city := by
  rw [extract_location, hsplit]
  have hfind : (pre ++ city :: post).find?
      (fun c => pyContains (pyLower query) (pyLower c)) = some city := by
    rw [List.find?_append]
    have hnone : pre.find? (fun c => pyContains (pyLower query) (pyLower c)) = none :=
      List.find?_eq_none.mpr (fun c hc => by simp [hearlier c hc])
    rw [hnone, Option.none_or]
    exact @List.find?_cons_of_pos _ (fun c => pyContains (pyLower query) (pyLower c))
      city post hcity
  rw [hfind]

/-- C4 witness: concrete instance of the amended theorem. -/
theorem c4_witness : extract_location "weather in Karachi" = "Karachi" :=
  c4_extract_first_listed_city "weather in Karachi" "Karachi" ["Islamabad", "Lahore"]
    ["Peshawar", "Quetta", "Rawalpindi", "Multan", "Faisalabad", "Hyderabad", "Gujranwala"]
    (by decide) (by decide) (by decide)

/-- C5: a query containing no known city name (case-insensitively) and no
preposition-followed-by-known-city pattern resolves to the fallback default
city "Islamabad". -/
theorem c5_default_fallback (query : String)
    (hnocity : ∀ c ∈ pakistani_cities, pyContains (pyLower query) (pyLower c) = false)
    (_hnoprep : hasPrepCityPattern query = false) :
    extract_location query = "Islamabad" := by
  rw [extract_location]
  have hfind : pakistani_cities.find?
      (fun city => pyContains (pyLower query) (pyLower city)) = none :=
    List.find?_eq_none.mpr (fun c hc => by simp [hnocity c hc])
  rw [hfind]
  simp only [prepositionScan_none]

/-- C5 witness: a concrete query with no city and no preposition pattern. -/
theorem c5_witness :
    (∀ c ∈ pakistani_cities, pyContains (pyLower "hello world") (pyLower c) = false) ∧
    hasPrepCityPattern "hello world" = false ∧
    extract_location "hello world" = "Islamabad" :=
  ⟨by decide, by decide, c5_default_fallback "hello world" (by decide) (by decide)⟩

/-- C10: location extraction always returns one of the ten known cities (in
particular a non-empty string); the capitalized-token membership test of the
preposition branch never matches a lower-cased city name, so the scan always
fails; consequently the "could not determine the location" branch of
`invoke` is unreachable and `invoke` always runs its resolved body. -/
theorem c10_couldnt_determine_unreachable :
    (∀ query : String,
        extract_location query ∈ pakistani_cities ∧ extract_location query ≠ "") ∧
    (∀ token : String, pyCapitalize token ∉ pakistani_cities.map pyLower) ∧
    (∀ words : List String, prepositionScan words = none) ∧
    (∀ (o : WeatherOracle) (query : String),
        invoke o query = invoke_resolved o query (extract_location query)) := by
  refine ⟨fun q => ⟨extract_location_mem q, extract_location_ne_empty q⟩,
    capitalized_not_mem_lower_cities, prepositionScan_none, fun o q => ?_⟩
  rw [invoke, if_neg (extract_location_ne_empty q)]

/-- C1 (code bug): on CLI input `weather Lahore` the actual `WeatherApp.run`
iteration never reaches the weather client: its under-applied `route_query`
call raises `TypeError`, which is caught and printed, and no response is
produced.  The dead `CommandHandler` path realizes the claimed behaviour:
it forwards the query to the agent, which calls the current-weather
operation with location "Lahore" and returns a reply containing "Lahore"
and the numeric temperature. -/
theorem c1_weather_lahore :
    run_turn "weather Lahore" = .printedError route_query_missing_args_error ∧
    (∀ r, run_turn "weather Lahore" ≠ .printedResponse r) ∧
    parse_input "weather Lahore" = ("weather", ["Lahore"]) ∧
    handle_command "weather" ["Lahore"]
      = .agentQuery "What\x27s the current weather in Lahore?" ∧
    (dispatch demoOracle "weather" ["Lahore"]).2.current = ["Lahore"] ∧
    pyContains (dispatch demoOracle "weather" ["Lahore"]).1 "Lahore" = true ∧
    pyContains (dispatch demoOracle "weather" ["Lahore"]).1 "31" = true := by
  refine ⟨by decide, fun r h => ?_, by decide, by decide, by decide, by decide, by decide⟩
  rw [show run_turn "weather Lahore" = .printedError route_query_missing_args_error
    from by decide] at h
  exact TurnOutcome.noConfusion h

/-- C2 (code bug): on CLI input `forecast Karachi 5` the actual run loop
fails with the same `TypeError`; the dead dispatcher path would forward the
query "What's the 5-day forecast for Karachi?" to the agent, but
`WeatherAgent.invoke` never calls the forecast operation on any input — it
answers every query from the current-weather endpoint — so no forecast is
ever requested at Karachi's coordinates. -/
theorem c2_forecast_never_requested :
    run_turn "forecast Karachi 5" = .printedError route_query_missing_args_error ∧
    parse_input "forecast Karachi 5" = ("forecast", ["Karachi", "5"]) ∧
    handle_command "forecast" ["Karachi", "5"]
      = .agentQuery "What\x27s the 5-day forecast for Karachi?" ∧
    (∀ (o : WeatherOracle) (q : String), (invoke o q).2.forecast = []) ∧
    (dispatch demoOracle "forecast" ["Karachi", "5"]).2
      = { current := ["Karachi"], air := ["Karachi"], forecast := [] } := by
  refine ⟨by decide, by decide, by decide, fun o q => ?_, by decide⟩
  rw [invoke]
  by_cases h : extract_location q = ""
  · rw [if_pos h]
  · rw [if_neg h, invoke_resolved]
    cases o.current (extract_location q) with
    | error e => rfl
    | ok w =>
      cases hx1 : pyContains (pyLower q) "temperature"
      · cases hx2 : pyContains (pyLower q) "rain" <;> rfl
      · rfl

/-- C3: historical air-quality collection over `days` requested days returns
at most `days` entries; a day whose upstream request fails contributes
nothing (the result equals the collection over the remaining days); and any
day whose request succeeds contributes its entry regardless of other days'
failures. -/
theorem c3_historical_best_effort {α : Type} [DecidableEq α] (days : Nat)
    (fetch : Nat → DayFetch α) :
    (get_historical_air_quality days fetch).length ≤ days ∧
    (∀ i, i < days → fetch i = .apiError →
      get_historical_air_quality days fetch =
        ((List.range days).filter (fun j => decide (j ≠ i))).filterMap
          (fun j => dayValue (fetch j))) ∧
    (∀ j e, j < days → fetch j = .ok e →
      e ∈ get_historical_air_quality days fetch) := by
  refine ⟨?_, fun i _ hi => ?_, fun j e hj hfetch => ?_⟩
  · calc (get_historical_air_quality days fetch).length
        ≤ (List.range days).length := List.length_filterMap_le _ _
      _ = days := List.length_range days
  · rw [get_historical_air_quality,
      filterMap_drop_none (fun j => dayValue (fetch j)) i
        (by show dayValue (fetch i) = none; rw [hi]; rfl)]
  · exact List.mem_filterMap.mpr ⟨j, List.mem_range.mpr hj, by rw [hfetch]; rfl⟩

/-- Per-day outcomes used to instantiate the historical-collection theorem:
day 2 raises, day 5 returns an empty list, other days succeed. -/
def demoFetch : Nat → DayFetch Nat :=
  fun i => if i = 2 then .apiError else if i = 5 then .emptyList else .ok (100 + i)

/-- C3 witness: the historical-collection theorem at a concrete week. -/
theorem c3_witness :
    (get_historical_air_quality 7 demoFetch).length ≤ 7 ∧
    get_historical_air_quality 7 demoFetch =
      ((List.range 7).filter (fun j => decide (j ≠ 2))).filterMap
        (fun j => dayValue (demoFetch j)) ∧
    103 ∈ get_historical_air_quality 7 demoFetch :=
  ⟨(c3_historical_best_effort 7 demoFetch).1,
    (c3_historical_best_effort 7 demoFetch).2.1 2 (by decide) (by decide),
    (c3_historical_best_effort 7 demoFetch).2.2 3 103 (by decide) (by decide)⟩

/-- A weather snapshot with the given temperature, mild wind and no rain,
used to evaluate the recommendation thresholds. -/
def mkTestWeather (t : ℚ) : WeatherData :=
  { temperature := t, feels_like := t, humidity := 50, wind_speed := 10,
    description := "clear sky", icon := "01d", timestamp := 1700000000,
    location := "Islamabad" }

theorem tempActivityRecs_eq (t : ℚ) :
    tempActivityRecs t = [advisoryOfLevel (activityLevel t)] := by
  rw [tempActivityRecs, activityLevel]
  by_cases h1 : 25 < t
  · rw [if_pos h1, if_pos h1]
    rfl
  · rw [if_neg h1, if_neg h1]
    by_cases h2 : 15 ≤ t
    · rw [if_pos ⟨h2, not_lt.mp h1⟩, if_pos h2]
      rfl
    · rw [if_neg (fun hc => h2 hc.1), if_neg h2, if_pos (not_le.mp h2)]
      rfl

/-- C6: the temperature advisory is a monotonic step function of the input
temperature with thresholds above 25, 15 to 25 inclusive, and below 15;
26°C yields the swimming advisory, 20°C the hiking advisory and 5°C the
indoor advisory. -/
theorem c6_activity_step_function :
    (∀ w : WeatherData, (outdoor_activity_recommendations w).head?
        = some (advisoryOfLevel (activityLevel w.temperature))) ∧
    Monotone activityLevel ∧
    (∀ w : WeatherData, 25 < w.temperature →
      (outdoor_activity_recommendations w).head? = some swim_advisory) ∧
    (∀ w : WeatherData, 15 ≤ w.temperature ∧ w.temperature ≤ 25 →
      (outdoor_activity_recommendations w).head? = some hike_advisory) ∧
    (∀ w : WeatherData, w.temperature < 15 →
      (outdoor_activity_recommendations w).head? = some indoor_advisory) ∧
    outdoor_activity_recommendations (mkTestWeather 26) = [swim_advisory] ∧
    outdoor_activity_recommendations (mkTestWeather 20) = [hike_advisory] ∧
    outdoor_activity_recommendations (mkTestWeather 5) = [indoor_advisory] := by
  have hhead : ∀ w : WeatherData, (outdoor_activity_recommendations w).head?
      = some (advisoryOfLevel (activityLevel w.temperature)) := by
    intro w
    rw [outdoor_activity_recommendations, tempActivityRecs_eq]
    rfl
  refine ⟨hhead, ?_, ?_, ?_, ?_, ?_, ?_, ?_⟩
  · intro a b hab
    rw [activityLevel, activityLevel]
    split_ifs <;> first | omega | (exfalso; linarith)
  · intro w hw
    rw [hhead w, activityLevel, if_pos hw]
    rfl
  · intro w hw
    rw [hhead w, activityLevel, if_neg (by linarith [hw.2]), if_pos hw.1]
    rfl
  · intro w hw
    rw [hhead w, activityLevel, if_neg (by linarith), if_neg (by linarith)]
    rfl
  · decide
  · decide
  · decide

/-- C6 witness: the above-25 branch of the step-function theorem at 30°C. -/
theorem c6_witness :
    25 < (mkTestWeather 30).temperature ∧
    (outdoor_activity_recommendations (mkTestWeather 30)).head? = some swim_advisory :=
  ⟨by decide, c6_activity_step_function.2.2.1 (mkTestWeather 30) (by decide)⟩

/-- A geocoding oracle for which every request raises. -/
def geoFailAll : String → GeoLookup := fun _ => .apiError

/-- A weather-endpoint oracle succeeding only on the raw name "Quetta". -/
def wxQuetta : String → WxLookup :=
  fun loc => if loc = "Quetta" then .found 30 67 else .apiError

/-- C7 counterexample: with oracles under which every geocoding variation
fails, coordinate resolution for "Quetta" still succeeds through the
weather-endpoint fallback pass, so resolution does not fail exactly when
all geocoding variations fail. -/
theorem c7_counterexample :
    (∀ v ∈ location_variations "Quetta", geoAttempt geoFailAll v = none) ∧
    get_coordinates geoFailAll wxQuetta "Quetta" = .ok (30, 67) := by
  refine ⟨by decide, by rfl⟩

/-- C7 (amended): `_get_coordinates` tries the five name variations in order
against the geocoding lookup, then the same five variations in order against
the current-weather endpoint, and fails — with the location-not-found
message — exactly when all ten attempts fail. -/
theorem c7_coordinates_resolution (geo : String → GeoLookup)
    (wx : String → WxLookup) (location : String) :
    ((∃ e, get_coordinates geo wx location = .error e) ↔
      ((∀ v ∈ location_variations location, geoAttempt geo v = none) ∧
       (∀ v ∈ location_variations location, wxAttempt wx v = none))) ∧
    (∀ e, get_coordinates geo wx location = .error e →
      e = coordinates_error_msg location) ∧
    (∀ pre v post c, location_variations location = pre ++ v :: post →
      geoAttempt geo v = some c → (∀ u ∈ pre, geoAttempt geo u = none) →
      get_coordinates geo wx location = .ok c) ∧
    (∀ pre v post c, (∀ u ∈ location_variations location, geoAttempt geo u = none) →
      location_variations location = pre ++ v :: post →
      wxAttempt wx v = some c → (∀ u ∈ pre, wxAttempt wx u = none) →
      get_coordinates geo wx location = .ok c) := by
  refine ⟨⟨?_, ?_⟩, ?_, ?_, ?_⟩
  · rintro ⟨e, he⟩
    rw [get_coordinates] at he
    cases hg : (location_variations location).findSome? (geoAttempt geo) with
    | some c => rw [hg] at he; exact absurd he (by simp)
    | none =>
      rw [hg] at he
      cases hw : (location_variations location).findSome? (wxAttempt wx) with
      | some c => rw [hw] at he; exact absurd he (by simp)
      | none =>
        exact ⟨List.findSome?_eq_none_iff.mp hg, List.findSome?_eq_none_iff.mp hw⟩
  · rintro ⟨hga, hwa⟩
    refine ⟨coordinates_error_msg location, ?_⟩
    rw [get_coordinates, List.findSome?_eq_none_iff.mpr hga,
      List.findSome?_eq_none_iff.mpr hwa]
  · intro e he
    rw [get_coordinates] at he
    cases hg : (location_variations location).findSome? (geoAttempt geo) with
    | some c => rw [hg] at he; exact absurd he (by simp)
    | none =>
      rw [hg] at he
      cases hw : (location_variations location).findSome? (wxAttempt wx) with
      | some c => rw [hw] at he; exact absurd he (by simp)
      | none =>
        rw [hw] at he
        exact (Except.error.injEq _ _).mp he.symm
  · intro pre v post c hsplit hv hpre
    rw [get_coordinates, hsplit, findSome?_first (geoAttempt geo) pre post v c hv hpre]
  · intro pre v post c hga hsplit hv hpre
    rw [get_coordinates, List.findSome?_eq_none_iff.mpr hga, hsplit,
      findSome?_first (wxAttempt wx) pre post v c hv hpre]

/-- A geocoding oracle succeeding only on the second variation
"Lahore,PK". -/
def geoSecondVariation : String → GeoLookup :=
  fun loc => if loc = "Lahore,PK" then .found 31 74 else .apiError

/-- A weather-endpoint oracle for which every request raises. -/
def wxFailAll : String → WxLookup := fun _ => .apiError

/-- C7 witness: the amended resolution theorem at concrete oracles where the
second geocoding variation succeeds. -/
theorem c7_witness :
    get_coordinates geoSecondVariation wxFailAll "Lahore" = .ok (31, 74) :=
  (c7_coordinates_resolution geoSecondVariation wxFailAll "Lahore").2.2.1
    ["Lahore"] "Lahore,PK" ["Lahore,Pakistan", "Lahore", "LAHORE"] (31, 74)
    (by decide) (by decide) (by decide)

/-- C8: if the reviewer's language-model call fails, `review_response`
returns the draft unchanged, and the model is invoked at most once per
review. -/
theorem c8_reviewer_fallback (llm : String → Except String String)
    (draft query : String) :
    (∀ e, llm (review_prompt draft query) = .error e →
      (review_response llm draft query).1 = draft) ∧
    (review_response llm draft query).2 ≤ 1 := by
  constructor
  · intro e he
    rw [review_response, he]
  · rw [review_response]
    cases llm (review_prompt draft query) <;> exact Nat.le_refl 1

/-- A language-model oracle whose every call raises. -/
def llmFail : String → Except String String := fun _ => .error "model unavailable"

/-- C8 witness: the fallback theorem at a failing model oracle. -/
theorem c8_witness :
    (review_response llmFail "draft reply" "weather in Lahore").1 = "draft reply" :=
  (c8_reviewer_fallback llmFail "draft reply" "weather in Lahore").1
    "model unavailable" rfl

/-- C9: with the weather API key unset, startup raises in
`WeatherTool.__init__`, `main` prints the configuration error and returns
exit code 1, and no HTTP request has been issued. -/
theorem c9_missing_key_fatal :
    main_startup none
      = .fatalError ("An unexpected error occurred: " ++ weather_key_error) 1 0 ∧
    pyContains ("An unexpected error occurred: " ++ weather_key_error)
      "OPENWEATHERMAP_API_KEY" = true ∧
    (1 : Nat) ≠ 0 := by
  refine ⟨rfl, by decide, by decide⟩

end LCAgent
